import Mathlib

/-!
Shallow embedding of `mpinets/run_training.py` (motion-policy-networks):
the training-run orchestration layer.  Python functions become Lean
functions; Python exceptions (`TypeError`, `KeyError`, `AssertionError`,
the reproducibility `Exception`) become an `Except` error value; the
ambient effects the module consumes (git dirtiness, the interactive
prompt's input stream, wandb's experiment id, `uuid.uuid1()`, the node
name) become explicit parameters.
-/

/-- Errors the orchestration layer can raise.  `reproducibilityError` is the
`Exception` of `check_for_uncommitted_changes`; `typeError`, `keyError` and
`assertionError` are the Python exceptions of the same names;
`blockedOnInput` stands for the confirmation prompt never receiving a valid
answer (the `while` loop at the prompt does not terminate). -/
inductive RunError where
  | reproducibilityError : RunError
  | blockedOnInput : RunError
  | typeError : RunError
  | keyError : String → RunError
  | assertionError : RunError
deriving DecidableEq, Repr

/-- A scalar YAML / Python value as it appears in the configuration file and
in `vars(args)`.  Python floats are embedded as rationals (the module never
computes with them; it only stores and compares them to `None`). -/
inductive Atom where
  | str : String → Atom
  | int : Int → Atom
  | rat : ℚ → Atom
  | bool : Bool → Atom
  | null : Atom
deriving DecidableEq, Repr

/-- A configuration value: a scalar, a list of integers (the `gpus` key may
be a list of device ids), or a flat sub-mapping (the parameter sub-dicts). -/
inductive CVal where
  | atom : Atom → CVal
  | intList : List Int → CVal
  | dict : List (String × Atom) → CVal
deriving DecidableEq, Repr

/-- Python truthiness of a scalar. -/
def Atom.truthy : Atom → Bool
  | .str s => !s.isEmpty
  | .int n => n != 0
  | .rat q => q != 0
  | .bool b => b
  | .null => false

/-- Python truthiness of a configuration value. -/
def CVal.truthy : CVal → Bool
  | .atom a => a.truthy
  | .intList l => !l.isEmpty
  | .dict d => !d.isEmpty

/-- Lookup in a Python dict modelled as an association list with unique
keys (first match wins). -/
def dictGet {α : Type} : List (String × α) → String → Option α
  | [], _ => none
  | p :: d, k => if p.1 = k then some p.2 else dictGet d k

/-- Insertion into a Python dict modelled as an association list: replace
the first entry with the key in place, else append (Python dicts keep the
first occurrence's position and update its value). -/
def dictInsert {α : Type} : List (String × α) → String → α → List (String × α)
  | [], k, v => [(k, v)]
  | p :: d, k, v => if p.1 = k then (k, v) :: d else p :: dictInsert d k v

/-- Python `{**a, **b}`: every entry of `b` inserted into `a`, later keys
winning. -/
def dictMerge {α : Type} (a b : List (String × α)) : List (String × α) :=
  b.foldl (fun acc kv => dictInsert acc kv.1 kv.2) a

/-- A filesystem path as its list of components (`pathlib.Path`). -/
structure PyPath where
  components : List String
deriving DecidableEq, Repr

/-- A Python value at a place where the source mixes `str` and
`pathlib.Path`: `PROJECT_ROOT` is built with `str(...)` while
`Path(checkpoint_dir).resolve()` is a `Path`. -/
inductive PyPathLike where
  | str : String → PyPathLike
  | path : PyPath → PyPathLike
deriving DecidableEq, Repr

/-- Python's `/` operator on path-like values: `Path / str` and
`str / Path` (via `PurePath.__rtruediv__`) join; `str / str` has no
operator and raises `TypeError`. -/
def pyTruediv : PyPathLike → PyPathLike → Except RunError PyPathLike
  | .path p, .str s => .ok (.path ⟨p.components ++ [s]⟩)
  | .path p, .path q => .ok (.path ⟨p.components ++ q.components⟩)
  | .str s, .path q => .ok (.path ⟨s :: q.components⟩)
  | .str _, .str _ => .error .typeError

/-- Modelled effectful primitive: `Path(s).resolve()` returns an absolute
path; resolution depends on the ambient filesystem, which the module does
not inspect further, so the resolved directory is kept opaque as a
single root component. -/
def pathResolve (s : String) : PyPath := ⟨[s]⟩

/-- The module-level constant `PROJECT_ROOT = str(Path(__file__).resolve().parent.parent)`.
Its exact text depends on where the repository is checked out; what the
source fixes is that it is a `str`, not a `Path`. -/
def PROJECT_ROOT : PyPathLike := .str "/opt/motion-policy-networks"

/-- Lines 67-71 of `setup_trainer`: the checkpoint directory.  With an
explicit root the directory is `Path(checkpoint_dir).resolve() / experiment_id`;
with no root the source evaluates `PROJECT_ROOT / "checkpoints" / experiment_id`,
a `str / str` expression. -/
def resolveCheckpointDir (checkpoint_dir : Option String) (experiment_id : String) :
    Except RunError PyPath :=
  match checkpoint_dir with
  | some d => .ok ⟨(pathResolve d).components ++ [experiment_id]⟩
  | none =>
    match pyTruediv PROJECT_ROOT (.str "checkpoints") with
    | .error e => .error e
    | .ok p =>
      match pyTruediv p (.str experiment_id) with
      | .error e => .error e
      | .ok (.path pp) => .ok pp
      | .ok (.str _) => .error .typeError

/-- The `gpus` argument: either an integer count or an explicit device list. -/
inductive GpuSpec where
  | count : Int → GpuSpec
  | devices : List Int → GpuSpec
deriving DecidableEq, Repr

/-- The number of devices a specification denotes. -/
def GpuSpec.deviceCount : GpuSpec → Int
  | .count n => n
  | .devices l => (l.length : Int)

/-- The parallel-execution strategy passed to the trainer; the source only
ever constructs `DDPStrategy(find_unused_parameters=False)`. -/
inductive Strategy where
  | ddp : Bool → Strategy
deriving DecidableEq, Repr

/-- Lines 52-58 of `setup_trainer`: DDP exactly when the `gpus` argument is
a list of length above one or an integer above one; otherwise no `strategy`
entry is put into the trainer kwargs. -/
def selectStrategy : GpuSpec → Option Strategy
  | .devices l => if 1 < l.length then some (.ddp false) else none
  | .count n => if 1 < n then some (.ddp false) else none

/-- The wandb logger, reduced to the one field the orchestration reads:
`logger.experiment.id`. -/
structure Logger where
  experiment_id : String
deriving DecidableEq, Repr

/-- A `ModelCheckpoint` callback as configured by `setup_trainer`.
`checkpoint_name_last` is the callback's `CHECKPOINT_NAME_LAST` attribute:
the class default `"last"` unless overwritten on the instance. -/
structure ModelCheckpointSpec where
  monitor : String
  save_last : Bool
  dirpath : PyPath
  train_time_interval : Option Int
  save_on_train_epoch_end : Option Bool
  checkpoint_name_last : String
deriving DecidableEq, Repr

/-- Lines 73-78: the wall-clock-interval checkpoint callback. -/
def everyNCheckpoint (dirpath : PyPath) (checkpoint_interval : Int) : ModelCheckpointSpec :=
  { monitor := "val_loss"
    save_last := true
    dirpath := dirpath
    train_time_interval := some checkpoint_interval
    save_on_train_epoch_end := none
    checkpoint_name_last := "last" }

/-- Lines 79-85: the epoch-end checkpoint callback, whose instance attribute
`CHECKPOINT_NAME_LAST` is overwritten to `"epoch-{epoch}-end"`. -/
def epochEndCheckpoint (dirpath : PyPath) : ModelCheckpointSpec :=
  { monitor := "val_loss"
    save_last := true
    dirpath := dirpath
    train_time_interval := none
    save_on_train_epoch_end := some true
    checkpoint_name_last := "epoch-{epoch}-end" }

/-- Lines 62-66: the experiment identity; the wandb session id when logging,
else a fresh `uuid.uuid1()` (passed in explicitly), with the `assert` that a
logger exists whenever `should_log` is set. -/
def experimentId (should_log : Bool) (logger : Option Logger) (fresh_uuid : String) :
    Except RunError String :=
  if should_log then
    match logger with
    | some l => .ok l.experiment_id
    | none => .error .assertionError
  else .ok fresh_uuid

/-- Lines 67-86: the checkpoint callbacks installed when checkpointing is
enabled; the empty list otherwise. -/
def checkpointCallbacks (should_checkpoint : Bool) (checkpoint_dir : Option String)
    (experiment_id : String) (checkpoint_interval : Int) :
    Except RunError (List ModelCheckpointSpec) :=
  if should_checkpoint then
    match resolveCheckpointDir checkpoint_dir experiment_id with
    | .error e => .error e
    | .ok dirpath => .ok [everyNCheckpoint dirpath checkpoint_interval, epochEndCheckpoint dirpath]
  else .ok []

/-- The `pl.Trainer` construction of lines 88-97, as the keyword arguments
the orchestration passes it.  Optional fields stand for keys that are only
present in the `args` dict when the corresponding branch ran. -/
structure TrainerConfig where
  enable_checkpointing : Bool
  callbacks : List ModelCheckpointSpec
  max_epochs : Nat
  gradient_clip_val : ℚ
  gpus : GpuSpec
  precision : Nat
  logger_enabled : Bool
  strategy : Option Strategy
  limit_train_batches : Option Nat
  limit_val_batches : Option Nat
  val_check_interval : Option ℚ
deriving DecidableEq, Repr

/-- Lines 22-98, `setup_trainer`: batch limits and the fixed validation
cadence in test mode, DDP selection, experiment identity, checkpoint
callbacks, and the trainer construction (which passes
`enable_checkpointing=should_log`, `max_epochs=1 if test else 500`,
`gradient_clip_val=1.0`, `precision=16` exactly as the source does). -/
def setup_trainer (gpus : GpuSpec) (test should_log should_checkpoint : Bool)
    (logger : Option Logger) (checkpoint_interval : Int)
    (checkpoint_dir : Option String) (validation_interval : Option ℚ)
    (fresh_uuid : String) : Except RunError TrainerConfig :=
  match experimentId should_log logger fresh_uuid with
  | .error e => .error e
  | .ok eid =>
    match checkpointCallbacks should_checkpoint checkpoint_dir eid checkpoint_interval with
    | .error e => .error e
    | .ok cbs =>
      .ok { enable_checkpointing := should_log
            callbacks := cbs
            max_epochs := if test then 1 else 500
            gradient_clip_val := 1
            gpus := gpus
            precision := 16
            logger_enabled := logger.isSome
            strategy := selectStrategy gpus
            limit_train_batches := if test then some 10 else none
            limit_val_batches := if test then some 3 else none
            val_check_interval := if test then some 2 else validation_interval }

/-- Lines 101-113, `setup_logger`, reduced to the value it returns: a logger
whose experiment id is issued by wandb (passed in explicitly) when logging is
on, `None` otherwise.  The hyperparameter upload is a side effect on the
external tracking service and carries no data back into the run. -/
def setup_logger (should_log : Bool) (wandb_id : String) : Option Logger :=
  if should_log then some ⟨wandb_id⟩ else none

/-- Lines 116-128, `check_for_uncommitted_changes`: raise when the working
tree has uncommitted changes to tracked files.  `is_dirty` is the result of
`repo.is_dirty(untracked_files=False)`, passed in explicitly. -/
def check_for_uncommitted_changes (is_dirty : Bool) : Except RunError Unit :=
  if is_dirty then .error .reproducibilityError else .ok ()

/-- Python `str.lower()`, character by character (the vocabulary compared
against is pure ASCII). -/
def pyLower (s : String) : String := ⟨s.data.map Char.toLower⟩

/-- Lines 131-146, `confirm_allow_dirty_repo`: read answers until one
lower-cases to a member of the vocabulary, then report whether it is
affirmative.  `answers` is the prompt's input stream; `none` means no valid
answer ever arrives and the `while` loop never exits. -/
def confirmAllowDirtyRepo : List String → Option Bool
  | [] => none
  | ans :: rest =>
    let a := pyLower ans
    if a == "y" || a == "yes" || a == "n" || a == "no" then
      some (a == "y" || a == "yes")
    else confirmAllowDirtyRepo rest

/-- The argparse namespace of lines 153-171: the positional config path and
the four `store_true` flags, each `false` unless passed. -/
structure ArgsNS where
  yaml_config : String
  test : Bool
  no_logging : Bool
  no_checkpointing : Bool
  allow_dirty_repo : Bool
deriving DecidableEq, Repr

/-- `vars(args)`: the namespace as the dict merged into the configuration. -/
def varsOf (a : ArgsNS) : List (String × CVal) :=
  [("yaml_config", .atom (.str a.yaml_config)),
   ("test", .atom (.bool a.test)),
   ("no_logging", .atom (.bool a.no_logging)),
   ("no_checkpointing", .atom (.bool a.no_checkpointing)),
   ("allow_dirty_repo", .atom (.bool a.allow_dirty_repo))]

/-- Lines 173-178: the reproducibility gate.  Test mode forces
`no_logging`; else an allow-dirty override with an affirmative confirmation
forces `no_logging`; else (also after a negative confirmation) the strict
uncommitted-changes check runs and may abort. -/
def applyGate (a : ArgsNS) (answers : List String) (is_dirty : Bool) :
    Except RunError ArgsNS :=
  if a.test then .ok { a with no_logging := true }
  else
    match (if a.allow_dirty_repo then confirmAllowDirtyRepo answers else some false) with
    | none => .error .blockedOnInput
    | some true => .ok { a with no_logging := true }
    | some false =>
      match check_for_uncommitted_changes is_dirty with
      | .error e => .error e
      | .ok _ => .ok a

/-- Lines 149-187, `parse_args_and_configuration`: run the gate, then merge
`{"training_node_name": ..., **configuration, **vars(args)}` with right-most
keys winning. -/
def parse_args_and_configuration (a : ArgsNS) (answers : List String) (is_dirty : Bool)
    (fileConfig : List (String × CVal)) (nodename : String) :
    Except RunError (List (String × CVal)) :=
  match applyGate a answers is_dirty with
  | .error e => .error e
  | .ok gated =>
    .ok (dictMerge (dictMerge [("training_node_name", CVal.atom (.str nodename))] fileConfig)
          (varsOf gated))

/-- Building the keyword arguments of a Python call `f(**a, **b)`: the dicts
are merged into one kwargs dict, and a key present twice raises
`TypeError: got multiple values for keyword argument`. -/
def kwargsUnion (a b : List (String × Atom)) : Except RunError (List (String × Atom)) :=
  if b.any (fun p => a.any fun q => q.1 == p.1) then .error .typeError
  else .ok (a ++ b)

/-- Whether two kwargs dicts have no key in common. -/
def keysDisjoint (a b : List (String × Atom)) : Bool :=
  !(b.any fun p => a.any fun q => q.1 == p.1)

/-- Lines 214-218: the keyword arguments of
`DataModule(batch_size=..., **shared_parameters, **data_module_parameters)`. -/
def dataModuleKwargs (batch_size : Atom) (shared data_params : List (String × Atom)) :
    Except RunError (List (String × Atom)) :=
  match kwargsUnion [("batch_size", batch_size)] shared with
  | .error e => .error e
  | .ok k => kwargsUnion k data_params

/-- Lines 219-222: the keyword arguments of
`TrainingMotionPolicyNetwork(**shared_parameters, **training_model_parameters)`. -/
def trainingModelKwargs (shared training_params : List (String × Atom)) :
    Except RunError (List (String × Atom)) :=
  kwargsUnion shared training_params

/-- `config[k]`: `KeyError` when the key is absent. -/
def cfgGet (c : List (String × CVal)) (k : String) : Except RunError CVal :=
  match dictGet c k with
  | some v => .ok v
  | none => .error (.keyError k)

/-- The `gpus` configuration value as the trainer's device specification. -/
def asGpuSpec : CVal → Except RunError GpuSpec
  | .atom (.int n) => .ok (.count n)
  | .intList l => .ok (.devices l)
  | _ => .error .typeError

/-- An integer-valued configuration entry (`checkpoint_interval`). -/
def asInt : CVal → Except RunError Int
  | .atom (.int n) => .ok n
  | _ => .error .typeError

/-- A string-or-None configuration entry (`save_checkpoint_dir`). -/
def asOptStr : CVal → Except RunError (Option String)
  | .atom .null => .ok none
  | .atom (.str s) => .ok (some s)
  | _ => .error .typeError

/-- A numeric-or-None configuration entry (`validation_interval`). -/
def asOptRat : CVal → Except RunError (Option ℚ)
  | .atom .null => .ok none
  | .atom (.rat q) => .ok (some q)
  | .atom (.int n) => .ok (some (n : ℚ))
  | _ => .error .typeError

/-- A scalar configuration entry used as a keyword argument (`batch_size`). -/
def asAtom : CVal → Except RunError Atom
  | .atom a => .ok a
  | _ => .error .typeError

/-- Python `x or {}` on a parameter sub-mapping: the value itself when
truthy, the empty dict otherwise. -/
def orEmptyDict (v : CVal) : CVal := if v.truthy then v else .dict []

/-- A configuration value unpacked with `**` into a call: must be a mapping. -/
def asKwargsDict : CVal → Except RunError (List (String × Atom))
  | .dict d => .ok d
  | _ => .error .typeError

/-- What one run constructs before handing control to the external fit
loop: the trainer configuration, the two collaborators' keyword arguments,
and whether the gradient observer was attached. -/
structure RunResult where
  trainer : TrainerConfig
  data_module_kwargs : List (String × Atom)
  model_kwargs : List (String × Atom)
  logger_watch_attached : Bool
deriving DecidableEq, Repr

/-- Lines 190-225, `run`: resolve the configuration, set up the logger and
trainer, then build the data and model collaborators and attach the gradient
observer when a logger exists.  Configuration keys are read in the source's
evaluation order; any error aborts before the later constructions happen. -/
def run (cli : ArgsNS) (answers : List String) (is_dirty : Bool)
    (fileConfig : List (String × CVal)) (nodename wandb_id fresh_uuid : String) :
    Except RunError RunResult := do
  let config ← parse_args_and_configuration cli answers is_dirty fileConfig nodename
  let _experiment_name ← cfgGet config "experiment_name"
  let noLoggingV ← cfgGet config "no_logging"
  let should_log := !noLoggingV.truthy
  let logger := setup_logger should_log wandb_id
  let gpusV ← cfgGet config "gpus"
  let gpus ← asGpuSpec gpusV
  let testV ← cfgGet config "test"
  let noCkptV ← cfgGet config "no_checkpointing"
  let ciV ← cfgGet config "checkpoint_interval"
  let ci ← asInt ciV
  let cdV ← cfgGet config "save_checkpoint_dir"
  let cd ← asOptStr cdV
  let viV ← cfgGet config "validation_interval"
  let vi ← asOptRat viV
  let trainer ← setup_trainer gpus testV.truthy should_log (!noCkptV.truthy) logger ci cd vi
    fresh_uuid
  let bsV ← cfgGet config "batch_size"
  let bs ← asAtom bsV
  let sharedV ← cfgGet config "shared_parameters"
  let shared ← asKwargsDict (orEmptyDict sharedV)
  let dmpV ← cfgGet config "data_module_parameters"
  let dmp ← asKwargsDict (orEmptyDict dmpV)
  let dmk ← dataModuleKwargs bs shared dmp
  let tmpV ← cfgGet config "training_model_parameters"
  let tmp ← asKwargsDict (orEmptyDict tmpV)
  let mdlk ← trainingModelKwargs shared tmp
  .ok { trainer := trainer
        data_module_kwargs := dmk
        model_kwargs := mdlk
        logger_watch_attached := logger.isSome }

/-- Concrete trainer: logging on, checkpointing off (`--no-checkpointing`),
one device, no test mode. -/
def loggedNoCkptTrainer : TrainerConfig :=
  { enable_checkpointing := true
    callbacks := []
    max_epochs := 500
    gradient_clip_val := 1
    gpus := .count 1
    precision := 16
    logger_enabled := true
    strategy := none
    limit_train_batches := none
    limit_val_batches := none
    val_check_interval := none }

/-- Concrete trainer: every flag off, one device. -/
def singleGpuTrainer : TrainerConfig :=
  { enable_checkpointing := false
    callbacks := []
    max_epochs := 500
    gradient_clip_val := 1
    gpus := .count 1
    precision := 16
    logger_enabled := false
    strategy := none
    limit_train_batches := none
    limit_val_batches := none
    val_check_interval := none }

/-- Concrete trainer: logging and checkpointing on, explicit checkpoint
root `"ckpts"`, wandb experiment id `"abc123"`. -/
def ckptTrainer : TrainerConfig :=
  { enable_checkpointing := true
    callbacks := [everyNCheckpoint ⟨["ckpts", "abc123"]⟩ 10,
                  epochEndCheckpoint ⟨["ckpts", "abc123"]⟩]
    max_epochs := 500
    gradient_clip_val := 1
    gpus := .count 1
    precision := 16
    logger_enabled := true
    strategy := none
    limit_train_batches := none
    limit_val_batches := none
    val_check_interval := none }

/-- Concrete trainer: test mode, requested validation cadence one half. -/
def testTrainerHalf : TrainerConfig :=
  { enable_checkpointing := false
    callbacks := []
    max_epochs := 1
    gradient_clip_val := 1
    gpus := .count 1
    precision := 16
    logger_enabled := false
    strategy := none
    limit_train_batches := some 10
    limit_val_batches := some 3
    val_check_interval := some 2 }

/-- Concrete trainer: test mode, no requested validation cadence. -/
def testTrainerPlain : TrainerConfig :=
  { enable_checkpointing := false
    callbacks := []
    max_epochs := 1
    gradient_clip_val := 1
    gpus := .count 1
    precision := 16
    logger_enabled := false
    strategy := none
    limit_train_batches := some 10
    limit_val_batches := some 3
    val_check_interval := some 2 }

/-- The merged configuration for a clean tree, no flags passed, and a file
that only sets `no_logging: true`. -/
def mergedSampleConfig : List (String × CVal) :=
  [("training_node_name", .atom (.str "node0")),
   ("no_logging", .atom (.bool false)),
   ("yaml_config", .atom (.str "config.yaml")),
   ("test", .atom (.bool false)),
   ("no_checkpointing", .atom (.bool false)),
   ("allow_dirty_repo", .atom (.bool false))]

/-- Inversion of a successful `setup_trainer`: the experiment id and the
callbacks resolved, and the returned record is exactly the kwargs of the
`pl.Trainer` call. -/
theorem setup_trainer_inv (gpus : GpuSpec) (test should_log should_checkpoint : Bool)
    (logger : Option Logger) (ci : Int) (cd : Option String) (vi : Option ℚ)
    (u : String) (t : TrainerConfig)
    (h : setup_trainer gpus test should_log should_checkpoint logger ci cd vi u = .ok t) :
    ∃ eid cbs, experimentId should_log logger u = .ok eid ∧
      checkpointCallbacks should_checkpoint cd eid ci = .ok cbs ∧
      t = { enable_checkpointing := should_log
            callbacks := cbs
            max_epochs := if test then 1 else 500
            gradient_clip_val := 1
            gpus := gpus
            precision := 16
            logger_enabled := logger.isSome
            strategy := selectStrategy gpus
            limit_train_batches := if test then some 10 else none
            limit_val_batches := if test then some 3 else none
            val_check_interval := if test then some 2 else vi } := by
  unfold setup_trainer at h
  split at h
  · exact absurd h (by simp)
  · rename_i eid2 hE2
    split at h
    · exact absurd h (by simp)
    · rename_i cbs2 hC2
      exact ⟨eid2, cbs2, hE2, hC2, (Except.ok.inj h).symm⟩

/-- Inversion of `checkpointCallbacks` when checkpointing is enabled. -/
theorem checkpointCallbacks_true_ok (cd : Option String) (eid : String) (ci : Int)
    (cbs : List ModelCheckpointSpec)
    (h : checkpointCallbacks true cd eid ci = .ok cbs) :
    ∃ d, resolveCheckpointDir cd eid = .ok d ∧
      cbs = [everyNCheckpoint d ci, epochEndCheckpoint d] := by
  unfold checkpointCallbacks at h
  rw [if_pos rfl] at h
  split at h
  · exact absurd h (by simp)
  · rename_i d hR
    exact ⟨d, hR, (Except.ok.inj h).symm⟩

/-- Looking up the key just inserted finds the inserted value. -/
theorem dictGet_insert_self {α : Type} (d : List (String × α)) (k : String) (v : α) :
    dictGet (dictInsert d k v) k = some v := by
  induction d with
  | nil => simp [dictInsert, dictGet]
  | cons p d ih =>
    by_cases h : p.1 = k
    · simp [dictInsert, h, dictGet]
    · simp [dictInsert, h, dictGet, ih]

/-- Inserting under one key leaves lookups of another key unchanged. -/
theorem dictGet_insert_of_ne {α : Type} (d : List (String × α)) (kIns k : String) (v : α)
    (hne : kIns ≠ k) :
    dictGet (dictInsert d kIns v) k = dictGet d k := by
  induction d with
  | nil => simp [dictInsert, dictGet, hne]
  | cons p d ih =>
    by_cases h : p.1 = kIns
    · simp [dictInsert, h, dictGet, hne]
    · simp [dictInsert, h, dictGet, ih]

/-- After merging `vars(args)` over any base mapping, the `no_logging` entry
is the flag value from the namespace. -/
theorem dictGet_merge_vars_no_logging (base : List (String × CVal)) (g : ArgsNS) :
    dictGet (dictMerge base (varsOf g)) "no_logging" =
      some (.atom (.bool g.no_logging)) := by
  have e : dictMerge base (varsOf g) =
      dictInsert (dictInsert (dictInsert (dictInsert (dictInsert base
        "yaml_config" (CVal.atom (.str g.yaml_config)))
        "test" (CVal.atom (.bool g.test)))
        "no_logging" (CVal.atom (.bool g.no_logging)))
        "no_checkpointing" (CVal.atom (.bool g.no_checkpointing)))
        "allow_dirty_repo" (CVal.atom (.bool g.allow_dirty_repo)) := rfl
  rw [e, dictGet_insert_of_ne _ "allow_dirty_repo" "no_logging" _ (by decide),
      dictGet_insert_of_ne _ "no_checkpointing" "no_logging" _ (by decide),
      dictGet_insert_self]

/-- Keyword-dict union as an if on disjointness. -/
theorem kwargsUnion_eq (a b : List (String × Atom)) :
    kwargsUnion a b = if keysDisjoint a b then .ok (a ++ b) else .error .typeError := by
  unfold kwargsUnion keysDisjoint
  cases h : b.any (fun p => a.any fun q => q.1 == p.1) <;> simp [h]

/-- The strategy choice of lines 52-58, characterised by the device count. -/
theorem selectStrategy_spec (g : GpuSpec) :
    (selectStrategy g = some (.ddp false) ↔ 1 < g.deviceCount) ∧
    (g.deviceCount ≤ 1 → selectStrategy g = none) := by
  cases g with
  | count n =>
    constructor
    · by_cases hlt : 1 < n <;> simp [selectStrategy, GpuSpec.deviceCount, hlt]
    · intro hle
      simp [GpuSpec.deviceCount] at hle
      simp [selectStrategy]
      omega
  | devices l =>
    constructor
    · by_cases hlt : 1 < l.length
      · simp only [selectStrategy, GpuSpec.deviceCount, if_pos hlt, true_iff]
        omega
      · simp only [selectStrategy, GpuSpec.deviceCount, if_neg hlt]
        constructor
        · intro hn
          exact absurd hn (by simp)
        · intro hc
          exact absurd (by omega : 1 < l.length) hlt
    · intro hle
      simp [GpuSpec.deviceCount] at hle
      simp [selectStrategy]
      omega

/-- C1: the spec says the resolved checkpoint directory with no explicit
root is the default root under the project joined with the experiment
identity, and that resolution succeeds with final component `"abc123"`.
The source instead evaluates `PROJECT_ROOT / "checkpoints" / experiment_id`
where `PROJECT_ROOT` is a `str`, so the default-root branch raises
`TypeError` instead of producing that directory. -/
theorem c1_default_root_raises_type_error :
    setup_trainer (.count 1) false false true none 10 none none "abc123"
      = .error .typeError := rfl

/-- C2: the spec says that with checkpointing disabled the fit loop runs
without any checkpoint persistence regardless of the logging flag.  The
source installs no checkpoint callbacks, but passes
`enable_checkpointing=should_log` to the trainer, so with logging enabled
the trainer is constructed with checkpointing enabled anyway. -/
theorem c2_enable_checkpointing_tracks_logging :
    setup_trainer (.count 1) false true false (some ⟨"wb1"⟩) 10 none none "u0"
      = .ok loggedNoCkptTrainer ∧
    loggedNoCkptTrainer.callbacks = [] ∧
    loggedNoCkptTrainer.enable_checkpointing = true :=
  ⟨rfl, rfl, rfl⟩

/-- C3 counterexample: a file entry `no_logging: true` does not survive the
merge when the flag is left at its default: the merge ends with
`**vars(args)`, so the resolved value is the flag's `false`. -/
theorem c3_file_no_logging_clobbered :
    (parse_args_and_configuration ⟨"config.yaml", false, false, false, false⟩ [] false
        [("no_logging", CVal.atom (.bool true))] "node0").map
      (fun cfg => dictGet cfg "no_logging")
      = .ok (some (CVal.atom (.bool false))) := rfl

/-- C3 (amended): command-line flag values always take precedence on key
collision: whatever the file says, the merged configuration's `no_logging`
entry is the (post-gate) flag value from the argparse namespace. -/
theorem c3_flags_always_take_precedence (a : ArgsNS) (answers : List String)
    (is_dirty : Bool) (fileConfig : List (String × CVal)) (nodename : String)
    (g : ArgsNS) (cfg : List (String × CVal))
    (hg : applyGate a answers is_dirty = .ok g)
    (h : parse_args_and_configuration a answers is_dirty fileConfig nodename = .ok cfg) :
    dictGet cfg "no_logging" = some (.atom (.bool g.no_logging)) := by
  unfold parse_args_and_configuration at h
  rw [hg] at h
  rw [← Except.ok.inj h]
  exact dictGet_merge_vars_no_logging _ g

/-- Witness for C3's amended claim at a concrete input: clean tree, no
flags passed, file sets `no_logging: true`; the merged configuration holds
`no_logging: false`. -/
theorem c3_flags_always_take_precedence_witness :
    dictGet mergedSampleConfig "no_logging" = some (.atom (.bool false)) :=
  c3_flags_always_take_precedence ⟨"config.yaml", false, false, false, false⟩ [] false
    [("no_logging", CVal.atom (.bool true))] "node0"
    ⟨"config.yaml", false, false, false, false⟩ mergedSampleConfig rfl rfl

/-- C4 counterexample: on a key collision between the shared mapping and a
component-specific mapping, the collaborator construction raises
`TypeError` (Python rejects a keyword given twice in one call) instead of
letting the component-specific value take effect. -/
theorem c4_shared_collision_raises :
    trainingModelKwargs [("num_robot_points", .int 2048)] [("num_robot_points", .int 4096)]
      = .error .typeError := rfl

/-- C4 (amended): the shared parameters are passed identically to both
collaborators when the keys are disjoint (both kwarg dicts embed the same
shared mapping verbatim), and any key collision between the shared mapping
and a component-specific mapping (or the explicit `batch_size` keyword)
makes that collaborator's construction fail with `TypeError`. -/
theorem c4_shared_applied_and_collision_fails (batch : Atom)
    (shared dataP trainP : List (String × Atom)) :
    (keysDisjoint [("batch_size", batch)] shared = true →
      keysDisjoint (("batch_size", batch) :: shared) dataP = true →
      dataModuleKwargs batch shared dataP
        = .ok (("batch_size", batch) :: (shared ++ dataP))) ∧
    (keysDisjoint shared trainP = true →
      trainingModelKwargs shared trainP = .ok (shared ++ trainP)) ∧
    (keysDisjoint shared trainP = false →
      trainingModelKwargs shared trainP = .error .typeError) ∧
    (keysDisjoint [("batch_size", batch)] shared = true →
      keysDisjoint (("batch_size", batch) :: shared) dataP = false →
      dataModuleKwargs batch shared dataP = .error .typeError) := by
  refine ⟨fun h1 h2 => ?_, fun h => ?_, fun h => ?_, fun h1 h2 => ?_⟩
  · unfold dataModuleKwargs
    rw [kwargsUnion_eq, if_pos h1]
    show kwargsUnion ([("batch_size", batch)] ++ shared) dataP = _
    simp only [List.singleton_append]
    rw [kwargsUnion_eq, if_pos h2]
    simp only [List.cons_append]
  · unfold trainingModelKwargs
    rw [kwargsUnion_eq, if_pos h]
  · unfold trainingModelKwargs
    rw [kwargsUnion_eq, if_neg (by simp [h])]
  · unfold dataModuleKwargs
    rw [kwargsUnion_eq, if_pos h1]
    show kwargsUnion ([("batch_size", batch)] ++ shared) dataP = _
    simp only [List.singleton_append]
    rw [kwargsUnion_eq, if_neg (by simp [h2])]

/-- Witness for C4's amended claim at concrete inputs: a disjoint data
module construction succeeds with the shared entry embedded, and a shared
vs model-specific collision fails. -/
theorem c4_shared_applied_and_collision_fails_witness :
    dataModuleKwargs (.int 8) [("num_robot_points", .int 2048)] [("data_dir", .str "d")]
      = .ok [("batch_size", .int 8), ("num_robot_points", .int 2048), ("data_dir", .str "d")] ∧
    trainingModelKwargs [("num_robot_points", .int 2048)] [("num_robot_points", .int 4096)]
      = .error .typeError := by
  have h := c4_shared_applied_and_collision_fails (.int 8)
    [("num_robot_points", .int 2048)] [("data_dir", .str "d")]
    [("num_robot_points", .int 4096)]
  exact ⟨h.1 (by decide) (by decide), h.2.2.1 (by decide)⟩

/-- C5 counterexample: a device count of zero does not fail fast: trainer
setup succeeds and silently selects the no-parallelism strategy. -/
theorem c5_zero_devices_silently_ok :
    (setup_trainer (.count 0) false false false none 10 (some "ckpts") (some 1) "u5").map
      (fun t => t.strategy) = .ok none := rfl

/-- C5 (amended): a device count of zero or a negative number is not
validated: trainer setup raises no configuration error and silently
selects the no-parallelism strategy. -/
theorem c5_nonpositive_count_not_rejected (n : Int) (hn : n ≤ 0) (ci : Int)
    (cd : Option String) (vi : Option ℚ) (u : String) :
    (setup_trainer (.count n) false false false none ci cd vi u).map
      (fun t => t.strategy) = .ok none := by
  have h1 : setup_trainer (.count n) false false false none ci cd vi u =
      .ok { enable_checkpointing := false
            callbacks := []
            max_epochs := 500
            gradient_clip_val := 1
            gpus := .count n
            precision := 16
            logger_enabled := false
            strategy := selectStrategy (.count n)
            limit_train_batches := none
            limit_val_batches := none
            val_check_interval := vi } := rfl
  have h2 : selectStrategy (.count n) = none := by
    show (if 1 < n then some (Strategy.ddp false) else none) = none
    rw [if_neg (by omega)]
  rw [h1]
  simp [Except.map, h2]

/-- Witness for C5's amended claim at the concrete count zero. -/
theorem c5_nonpositive_count_not_rejected_witness :
    (setup_trainer (.count 0) false false false none 10 none none "u6").map
      (fun t => t.strategy) = .ok none :=
  c5_nonpositive_count_not_rejected 0 (by decide) 10 none none "u6"

/-- C6: the selected strategy is DDP with unused-parameter detection
disabled exactly when the device specification denotes more than one
device, and is the no-parallelism choice whenever the count is at most
one. -/
theorem c6_ddp_iff_multi_device (gpus : GpuSpec) (test should_log should_checkpoint : Bool)
    (logger : Option Logger) (ci : Int) (cd : Option String) (vi : Option ℚ)
    (u : String) (t : TrainerConfig)
    (h : setup_trainer gpus test should_log should_checkpoint logger ci cd vi u = .ok t) :
    (t.strategy = some (.ddp false) ↔ 1 < gpus.deviceCount) ∧
    (gpus.deviceCount ≤ 1 → t.strategy = none) := by
  obtain ⟨eid, cbs, hE, hC, ht⟩ :=
    setup_trainer_inv gpus test should_log should_checkpoint logger ci cd vi u t h
  subst ht
  exact selectStrategy_spec gpus

/-- Witness for C6 at the concrete count one: setup succeeds and no
strategy is selected. -/
theorem c6_ddp_iff_multi_device_witness :
    setup_trainer (.count 1) false false false none 10 none none "u1"
      = .ok singleGpuTrainer ∧
    singleGpuTrainer.strategy = none :=
  ⟨rfl, (c6_ddp_iff_multi_device (.count 1) false false false none 10 none none "u1"
      singleGpuTrainer rfl).2 (by decide)⟩

/-- C7: whenever checkpointing is enabled and trainer setup succeeds, the
two installed triggers target the same resolved directory and their
latest-artifact filenames (`CHECKPOINT_NAME_LAST`) are distinct. -/
theorem c7_triggers_same_dir_distinct_names (gpus : GpuSpec) (test should_log : Bool)
    (logger : Option Logger) (ci : Int) (cd : Option String) (vi : Option ℚ)
    (u : String) (t : TrainerConfig)
    (h : setup_trainer gpus test should_log true logger ci cd vi u = .ok t) :
    ∃ a b, t.callbacks = [a, b] ∧ a.dirpath = b.dirpath ∧
      a.save_last = true ∧ b.save_last = true ∧
      a.checkpoint_name_last ≠ b.checkpoint_name_last := by
  obtain ⟨eid, cbs, hE, hC, ht⟩ :=
    setup_trainer_inv gpus test should_log true logger ci cd vi u t h
  obtain ⟨d, hd, hcbs⟩ := checkpointCallbacks_true_ok cd eid ci cbs hC
  subst ht
  subst hcbs
  exact ⟨everyNCheckpoint d ci, epochEndCheckpoint d, rfl, rfl, rfl, rfl,
    show ("last" : String) ≠ "epoch-{epoch}-end" by decide⟩

/-- Witness for C7 at a concrete enabled policy: explicit root `"ckpts"`,
wandb experiment id `"abc123"`. -/
theorem c7_triggers_same_dir_distinct_names_witness :
    setup_trainer (.count 1) false true true (some ⟨"abc123"⟩) 10 (some "ckpts") none "unused"
      = .ok ckptTrainer ∧
    (∃ a b, ckptTrainer.callbacks = [a, b] ∧ a.dirpath = b.dirpath ∧
      a.save_last = true ∧ b.save_last = true ∧
      a.checkpoint_name_last ≠ b.checkpoint_name_last) :=
  ⟨rfl, c7_triggers_same_dir_distinct_names (.count 1) false true (some ⟨"abc123"⟩) 10
      (some "ckpts") none "unused" ckptTrainer rfl⟩

/-- C8: in test mode the training-batch count is capped to 10, the
validation-batch count to 3, and the validation cadence is overridden to
the fixed value 2 regardless of the requested cadence. -/
theorem c8_test_mode_limits_and_cadence (gpus : GpuSpec) (should_log should_checkpoint : Bool)
    (logger : Option Logger) (ci : Int) (cd : Option String) (vi : Option ℚ)
    (u : String) (t : TrainerConfig)
    (h : setup_trainer gpus true should_log should_checkpoint logger ci cd vi u = .ok t) :
    t.limit_train_batches = some 10 ∧ t.limit_val_batches = some 3 ∧
    t.val_check_interval = some 2 := by
  obtain ⟨eid, cbs, hE, hC, ht⟩ :=
    setup_trainer_inv gpus true should_log should_checkpoint logger ci cd vi u t h
  subst ht
  exact ⟨rfl, rfl, rfl⟩

/-- Witness for C8 at the concrete requested cadence one half. -/
theorem c8_test_mode_limits_and_cadence_witness :
    setup_trainer (.count 1) true false false none 10 none (some (1/2)) "u0"
      = .ok testTrainerHalf ∧
    (testTrainerHalf.limit_train_batches = some 10 ∧
      testTrainerHalf.limit_val_batches = some 3 ∧
      testTrainerHalf.val_check_interval = some 2) :=
  ⟨rfl, c8_test_mode_limits_and_cadence (.count 1) false false none 10 none (some (1/2)) "u0"
      testTrainerHalf rfl⟩

/-- C9: with test mode off, the allow-dirty override requested, a negative
confirmation, and a dirty tree, the gate falls through to the strict check
and the run aborts with the reproducibility error before any collaborator
is constructed. -/
theorem c9_dirty_fallthrough_aborts (cli : ArgsNS) (answers : List String)
    (fileConfig : List (String × CVal)) (nodename wandb_id fresh_uuid : String)
    (ht : cli.test = false) (had : cli.allow_dirty_repo = true)
    (hc : confirmAllowDirtyRepo answers = some false) :
    run cli answers true fileConfig nodename wandb_id fresh_uuid
      = .error .reproducibilityError := by
  have hp : parse_args_and_configuration cli answers true fileConfig nodename
      = .error .reproducibilityError := by
    unfold parse_args_and_configuration applyGate check_for_uncommitted_changes
    simp [ht, had, hc]
  unfold run
  rw [hp]
  rfl

/-- Witness for C9: concrete flags `--allow-dirty-repo`, answer `"NO"`,
dirty tree. -/
theorem c9_dirty_fallthrough_aborts_witness :
    run ⟨"mpinets.yaml", false, false, false, true⟩ ["NO"] true [] "node1" "wb" "uu"
      = .error .reproducibilityError :=
  c9_dirty_fallthrough_aborts ⟨"mpinets.yaml", false, false, false, true⟩ ["NO"] [] "node1"
    "wb" "uu" rfl rfl rfl

/-- C10: the configured number of training epochs is exactly 1 in test
mode and at most 500 otherwise. -/
theorem c10_epoch_bound (gpus : GpuSpec) (test should_log should_checkpoint : Bool)
    (logger : Option Logger) (ci : Int) (cd : Option String) (vi : Option ℚ)
    (u : String) (t : TrainerConfig)
    (h : setup_trainer gpus test should_log should_checkpoint logger ci cd vi u = .ok t) :
    (test = true → t.max_epochs = 1) ∧ (test = false → t.max_epochs ≤ 500) := by
  obtain ⟨eid, cbs, hE, hC, ht⟩ :=
    setup_trainer_inv gpus test should_log should_checkpoint logger ci cd vi u t h
  subst ht
  constructor
  · intro hx
    subst hx
    rfl
  · intro hx
    subst hx
    exact le_refl 500

/-- Witness for C10 in concrete test mode: exactly one epoch. -/
theorem c10_epoch_bound_witness :
    setup_trainer (.count 1) true false false none 10 none none "u2" = .ok testTrainerPlain ∧
    testTrainerPlain.max_epochs = 1 :=
  ⟨rfl, (c10_epoch_bound (.count 1) true false false none 10 none none "u2"
      testTrainerPlain rfl).1 rfl⟩
